import Mathlib

/-!
Verification of the jobSphere backend's employer/job/application controller
and authentication middleware, as a shallow embedding in Lean 4.

The TypeScript source is embedded as pure Lean functions:
  * the Prisma-backed database is a `Store` record of entity lists;
  * each Express handler becomes a function from its parsed request parts
    and a `Store` to a result (new store and/or HTTP status with the body
    fields the properties talk about);
  * external collaborators (the `jsonwebtoken` verifier and the `bcrypt`
    comparator) are passed in as function parameters, and the outcome of a
    `zod` schema parse is the handler's input (`Except` for parse failure),
    because those libraries' internals are outside the repository;
  * JavaScript `parseInt` with its NaN result is `jsParseInt : String →
    Option Int`, and the `x || d` defaulting idiom is modelled on its
    result (`none`/`0` fall back to the default);
  * `prisma.$transaction` is modelled atomically, with an external failure
    oracle `fail : Nat → Bool` deciding whether each statement inside the
    transaction aborts; an aborted transaction leaves the store unchanged.
-/

namespace JobSphere

/-! ## Data model (mirrors the Prisma entities used by the controller) -/

structure User where
  id : Int
  email : String
  name : String
  role : String
  phone : Option String := none
  location : Option String := none
  profilePicture : Option String := none
deriving Repr, DecidableEq

structure Employer where
  id : Int
  userId : Int
  companyName : String
  companyUrl : Option String := none
  companySize : Option String := none
  industry : Option String := none
deriving Repr, DecidableEq

structure JobSeeker where
  id : Int
  userId : Int
deriving Repr, DecidableEq

structure Job where
  id : Int
  employerId : Int
  title : String
  role : String
  description : String
  requirements : Option String := none
  location : Option String := none
  jobType : String
  salaryMin : Option Int := none
  salaryMax : Option Int := none
  isActive : Bool := true
  createdAt : Int := 0
deriving Repr, DecidableEq

structure JobFormField where
  jobId : Int
  label : String
  fieldType : String
  isRequired : Bool := true
  order : Int := 0
deriving Repr, DecidableEq

structure Application where
  id : Int
  jobId : Int
  jobSeekerId : Int
  status : String
  appliedAt : Int := 0
deriving Repr, DecidableEq

structure Admin where
  id : Int
  email : String
  name : String
  password : String
deriving Repr, DecidableEq

structure Student where
  id : Int
  email : String
  name : String
  password : String
deriving Repr, DecidableEq

structure Store where
  users : List User := []
  employers : List Employer := []
  jobSeekers : List JobSeeker := []
  jobs : List Job := []
  formFields : List JobFormField := []
  applications : List Application := []
  admins : List Admin := []
  students : List Student := []
deriving Repr, DecidableEq

/-! ## JavaScript-semantics helpers -/

/-- Numeric value of a list of decimal digit characters. -/
def digitsVal (cs : List Char) : Nat :=
  cs.foldl (fun acc c => acc * 10 + (c.toNat - 48)) 0

/-- JavaScript `parseInt(s, 10)`: skip leading whitespace, optional sign,
then the longest prefix of decimal digits; no digits means NaN (`none`). -/
def jsParseInt (s : String) : Option Int :=
  let t := s.toList.dropWhile (fun c => c == ' ' || c == '\t' || c == '\n' || c == '\r')
  let signRest : Int × List Char :=
    match t with
    | '-' :: r => (-1, r)
    | '+' :: r => (1, r)
    | r => (1, r)
  let ds := signRest.2.takeWhile Char.isDigit
  if ds.isEmpty then none
  else some (signRest.1 * (digitsVal ds : Int))

/-- JavaScript `parseInt(x) || d`: NaN and `0` are falsy and fall back. -/
def jsIntOr (v : Option Int) (d : Int) : Int :=
  match v with
  | none => d
  | some 0 => d
  | some n => n

/-- JavaScript string truthiness of a possibly-absent value: absent and
empty are falsy. -/
def strTruthy (o : Option String) : Bool :=
  match o with
  | none => false
  | some s => s != ""

/-- JavaScript `a || b` on strings: empty falls back. -/
def jsStrOr (a b : String) : String :=
  if a == "" then b else a

/-- JavaScript `toUpperCase()` restricted to ASCII, character by
character. -/
def jsToUpper (s : String) : String := String.mk (s.data.map Char.toUpper)

/-- Remove the first occurrence of `pat` from a character list; `none`
when `pat` does not occur. -/
def dropFirstAux (pat : List Char) : List Char → Option (List Char)
  | [] => none
  | c :: cs =>
    if pat.isPrefixOf (c :: cs) then some ((c :: cs).drop pat.length)
    else (dropFirstAux pat cs).map (fun r => c :: r)

/-- JavaScript `String.prototype.replace` with a string pattern replaces the
first occurrence only; here specialised to deleting the pattern. -/
def dropFirstOccurrence (s pat : String) : String :=
  match dropFirstAux pat.data s.data with
  | some cs => String.mk cs
  | none => s

/-- An absent-or-provided update field: Prisma leaves an absent key alone. -/
def updOpt {α : Type} (newVal oldVal : Option α) : Option α :=
  match newVal with
  | some v => some v
  | none => oldVal

/-- `Math.ceil(t / l)` for natural `t` and positive natural `l`. -/
def jsCeilDiv (t l : Nat) : Nat := (t + l - 1) / l

/-! ## Authentication middleware (auth.middleware.ts, part_000,
auth.dynamicMiddleware.ts) -/

/-- Claims of the user-subsystem JWT (`{ id, email, role }`). -/
structure JwtUserPayload where
  id : Int
  email : String
  role : String
deriving Repr, DecidableEq

/-- Claims of the admin/student-subsystem JWT (`{ emailId, role }`). -/
structure JwtEmailPayload where
  emailId : String
  role : String
deriving Repr, DecidableEq

/-- The parts of an incoming request the middleware reads. -/
structure AuthReq where
  authHeader : Option String := none
  cookieToken : Option String := none
deriving Repr, DecidableEq

/-- Outcome of a middleware run: `next()` with an attached user, or a
short-circuit HTTP response. -/
inductive AuthOutcome where
  | fail (status : Nat)
  | ok (u : User)
deriving Repr, DecidableEq

/-- Outcome of the admin/student middleware. -/
inductive AuthOutcomeAS where
  | fail (status : Nat)
  | okAdmin (a : Admin)
  | okStudent (st : Student)
deriving Repr, DecidableEq

/-- Token extraction shared by `authenticate`, `authEmployer`,
`authJobSeeker` and `optionalAuth`: take the Authorization header with the
first `"Bearer "` removed; when that is absent or empty, the `token`
cookie. -/
def extractToken (r : AuthReq) : Option String :=
  match r.authHeader with
  | some h =>
    let t := dropFirstOccurrence h "Bearer "
    if t == "" then r.cookieToken else some t
  | none => r.cookieToken

/-- `authenticate` from auth.middleware.ts: header-or-cookie token, verify,
load user by claimed id, require the stored role to equal the claimed
role. -/
def authenticate (verify : String → Option JwtUserPayload) (s : Store)
    (r : AuthReq) : AuthOutcome :=
  match extractToken r with
  | none => .fail 401
  | some tok =>
    match verify tok with
    | none => .fail 401
    | some p =>
      match s.users.find? (fun u => u.id == p.id) with
      | none => .fail 404
      | some u => if u.role != p.role then .fail 401 else .ok u

/-- `authEmployer` from auth.middleware.ts. -/
def authEmployer (verify : String → Option JwtUserPayload) (s : Store)
    (r : AuthReq) : AuthOutcome :=
  match extractToken r with
  | none => .fail 401
  | some tok =>
    match verify tok with
    | none => .fail 401
    | some p =>
      if p.role != "EMPLOYER" then .fail 403
      else
        match s.users.find? (fun u => u.id == p.id) with
        | none => .fail 404
        | some u => if u.role != "EMPLOYER" then .fail 403 else .ok u

/-- `authJobSeeker` from auth.middleware.ts. -/
def authJobSeeker (verify : String → Option JwtUserPayload) (s : Store)
    (r : AuthReq) : AuthOutcome :=
  match extractToken r with
  | none => .fail 401
  | some tok =>
    match verify tok with
    | none => .fail 401
    | some p =>
      if p.role != "JOB_SEEKER" then .fail 403
      else
        match s.users.find? (fun u => u.id == p.id) with
        | none => .fail 404
        | some u => if u.role != "JOB_SEEKER" then .fail 403 else .ok u

/-- `authAdmin` from the admin/student middleware file: reads only the
`token` cookie (never the Authorization header). -/
def authAdmin (verify : String → Option JwtEmailPayload) (s : Store)
    (r : AuthReq) : AuthOutcomeAS :=
  match r.cookieToken with
  | none => .fail 401
  | some tok =>
    match verify tok with
    | none => .fail 401
    | some p =>
      if (jsToUpper p.role) != "ADMIN" then .fail 403
      else
        match s.admins.find? (fun a => a.email == p.emailId) with
        | none => .fail 404
        | some a => .okAdmin a

/-- `authStudent` from the admin/student middleware file: cookie only. -/
def authStudent (verify : String → Option JwtEmailPayload) (s : Store)
    (r : AuthReq) : AuthOutcomeAS :=
  match r.cookieToken with
  | none => .fail 401
  | some tok =>
    match verify tok with
    | none => .fail 401
    | some p =>
      if (jsToUpper p.role) != "STUDENT" then .fail 403
      else
        match s.students.find? (fun st => st.email == p.emailId) with
        | none => .fail 404
        | some st => .okStudent st

/-- `authDynamic` from auth.dynamicMiddleware.ts: reads only the `token`
cookie, verifies it, and dispatches on the claimed role to `authEmployer`
or `authJobSeeker` (which re-extract the token themselves). -/
def authDynamic (verifyE : String → Option JwtEmailPayload)
    (verifyU : String → Option JwtUserPayload) (s : Store)
    (r : AuthReq) : AuthOutcome :=
  match r.cookieToken with
  | none => .fail 401
  | some tok =>
    match verifyE tok with
    | none => .fail 401
    | some p =>
      if (jsToUpper p.role) == "EMPLOYER" then authEmployer verifyU s r
      else if (jsToUpper p.role) == "JOB_SEEKER" then authJobSeeker verifyU s r
      else .fail 403

/-- `requireCompleteProfile` from auth.middleware.ts: `none` means the gate
passes (`next()`), `some st` is the short-circuit status. -/
def requireCompleteProfile (u : Option User) (s : Store) : Option Nat :=
  match u with
  | none => some 401
  | some user =>
    if user.role == "EMPLOYER" then
      match s.employers.find? (fun e => e.userId == user.id) with
      | none => some 400
      | some _ => none
    else if user.role == "JOB_SEEKER" then
      match s.jobSeekers.find? (fun j => j.userId == user.id) with
      | none => some 400
      | some _ => none
    else none

/-! ## Login (handleLogin in the auth controller) -/

structure LoginBody where
  email : Option String := none
  password : Option String := none
  role : Option String := none
deriving Repr, DecidableEq

structure LoginResult where
  status : Nat
  cookieSet : Bool := false
  userEmail : Option String := none
  userId : Option Int := none
  userRole : Option String := none
  userName : Option String := none
deriving Repr, DecidableEq

/-- `handleLogin`: requires truthy email/password/role; upper-cases the role
and only accepts `ADMIN` (looked up in the admin table) or `STUDENT`
(student table), rejecting every other role with 400; 404 when the account
is missing, 401 when the bcrypt comparison fails; on success signs a token,
sets the cookie and replies with the account fields, echoing the role
string exactly as it was sent. `compare` is the external
`bcrypt.compare`. -/
def handleLogin (compare : String → String → Bool) (body : LoginBody)
    (s : Store) : LoginResult :=
  if !(strTruthy body.email && strTruthy body.password && strTruthy body.role) then
    { status := 400 }
  else
    let email := body.email.getD ""
    let password := body.password.getD ""
    let role := body.role.getD ""
    let roleUpperCase := jsToUpper role
    let acct : Option (Int × String × String × String) :=
      if roleUpperCase == "ADMIN" then
        (s.admins.find? (fun a => a.email == email)).map
          (fun a => (a.id, a.email, a.name, a.password))
      else
        (s.students.find? (fun st => st.email == email)).map
          (fun st => (st.id, st.email, st.name, st.password))
    if roleUpperCase != "ADMIN" && roleUpperCase != "STUDENT" then
      { status := 400 }
    else
      match acct with
      | none => { status := 404 }
      | some (uid, uemail, uname, upass) =>
        if !(compare password upass) then { status := 401 }
        else
          { status := 200, cookieSet := true,
            userEmail := some uemail, userId := some uid,
            userRole := some role,
            userName := some (jsStrOr uname "No Name Provided") }

/-! ## Employer controller (part_001) -/

/-- Result of a successful `employerSchema.parse`. Optional keys that were
absent from the body are `none`; Prisma then leaves them unchanged on
update. A `zod` failure is the `Except.error` side at the call site. -/
structure EmployerBody where
  companyName : String
  companyUrl : Option String := none
  companySize : Option String := none
  industry : Option String := none
deriving Repr, DecidableEq

/-- One entry of the `formFields` array after `jobSchema` validation. -/
structure FormFieldInput where
  label : String
  fieldType : String
  isRequired : Bool := true
  order : Int := 0
deriving Repr, DecidableEq

/-- Result of a successful full `jobSchema.parse` (createJob). -/
structure JobCreateBody where
  title : String
  role : String
  description : String
  requirements : Option String := none
  location : Option String := none
  jobType : String
  salaryMin : Option Int := none
  salaryMax : Option Int := none
  formFields : Option (List FormFieldInput) := none
deriving Repr, DecidableEq

/-- Result of a successful `jobSchema.partial().parse` (updateJob): every
key optional; `none` means the key was absent. -/
structure JobUpdateBody where
  title : Option String := none
  role : Option String := none
  description : Option String := none
  requirements : Option String := none
  location : Option String := none
  jobType : Option String := none
  salaryMin : Option Int := none
  salaryMax : Option Int := none
  formFields : Option (List FormFieldInput) := none
deriving Repr, DecidableEq

/-- The seven members of the `ApplicationStatus` enumeration, as listed in
both `getJobApplications` and `updateApplicationStatus`. -/
def validStatuses : List String :=
  ["PENDING", "REVIEWING", "SHORTLISTED", "INTERVIEWED", "ACCEPTED",
   "REJECTED", "WITHDRAWN"]

/-- Autoincrement for a created employer row. -/
def nextEmployerId (s : Store) : Int :=
  (s.employers.map Employer.id).foldr max 0 + 1

/-- Autoincrement for a created job row. -/
def nextJobId (s : Store) : Int :=
  (s.jobs.map Job.id).foldr max 0 + 1

/-- `createEmployer`: parse body, require auth, reject when a profile
already exists (400), require the account to exist with role EMPLOYER
(403 otherwise), then insert. -/
def createEmployer (body : Except Unit EmployerBody) (userId : Option Int)
    (s : Store) : Store × Nat :=
  match body with
  | .error _ => (s, 400)
  | .ok data =>
    match userId with
    | none => (s, 401)
    | some uid =>
      match s.employers.find? (fun e => e.userId == uid) with
      | some _ => (s, 400)
      | none =>
        match s.users.find? (fun u => u.id == uid) with
        | none => (s, 403)
        | some u =>
          if u.role != "EMPLOYER" then (s, 403)
          else
            ({ s with employers := s.employers ++
                [{ id := nextEmployerId s, userId := uid,
                   companyName := data.companyName,
                   companyUrl := data.companyUrl,
                   companySize := data.companySize,
                   industry := data.industry }] }, 201)

/-- A job as returned by `getEmployer`/`getEmployerJobs`, annotated with
Prisma's `_count.applications`. -/
structure JobWithCount where
  job : Job
  applicationCount : Nat
deriving Repr, DecidableEq

structure GetEmployerResult where
  status : Nat
  employer : Option Employer := none
  jobs : List JobWithCount := []
deriving Repr, DecidableEq

/-- Ordering used by Prisma's `orderBy: { createdAt: 'desc' }`. -/
def newestFirst (a b : Job) : Prop := b.createdAt ≤ a.createdAt

instance : DecidableRel newestFirst := fun a b =>
  inferInstanceAs (Decidable (b.createdAt ≤ a.createdAt))

/-- `getEmployer`: parse the path id (a NaN becomes a thrown error, caught
as 500), load the employer with its jobs newest-first, each with its
application count; 404 when absent. No authentication is consulted inside
the handler itself. -/
def getEmployer (idParam : String) (s : Store) : GetEmployerResult :=
  match jsParseInt idParam with
  | none => { status := 500 }
  | some employerId =>
    match s.employers.find? (fun e => e.id == employerId) with
    | none => { status := 404 }
    | some emp =>
      let owned := s.jobs.filter (fun j => j.employerId == employerId)
      let sorted := List.insertionSort newestFirst owned
      { status := 200, employer := some emp,
        jobs := sorted.map (fun j =>
          { job := j,
            applicationCount :=
              (s.applications.filter (fun a => a.jobId == j.id)).length }) }

/-- `updateEmployer`: path id, then body parse, then auth, then the
ownership check (`403` when the employer is missing or owned by another
account), then the update of exactly the schema fields. -/
def updateEmployer (idParam : String) (body : Except Unit EmployerBody)
    (userId : Option Int) (s : Store) : Store × Nat :=
  match jsParseInt idParam with
  | none => (s, 500)
  | some employerId =>
    match body with
    | .error _ => (s, 400)
    | .ok data =>
      match userId with
      | none => (s, 401)
      | some uid =>
        match s.employers.find? (fun e => e.id == employerId) with
        | none => (s, 403)
        | some emp =>
          if emp.userId != uid then (s, 403)
          else
            ({ s with employers := s.employers.map (fun e =>
                if e.id == employerId then
                  { e with companyName := data.companyName,
                           companyUrl := updOpt data.companyUrl e.companyUrl,
                           companySize := updOpt data.companySize e.companySize,
                           industry := updOpt data.industry e.industry }
                else e) }, 200)

/-- `deleteEmployer`: path id, auth, ownership, hard delete. -/
def deleteEmployer (idParam : String) (userId : Option Int)
    (s : Store) : Store × Nat :=
  match jsParseInt idParam with
  | none => (s, 500)
  | some employerId =>
    match userId with
    | none => (s, 401)
    | some uid =>
      match s.employers.find? (fun e => e.id == employerId) with
      | none => (s, 403)
      | some emp =>
        if emp.userId != uid then (s, 403)
        else
          ({ s with employers :=
              s.employers.filter (fun e => e.id != employerId) }, 200)

structure Pagination where
  page : Int
  limit : Int
  total : Nat
  pages : Nat
deriving Repr, DecidableEq

structure JobsListResult where
  status : Nat
  jobs : List JobWithCount := []
  pagination : Option Pagination := none
deriving Repr, DecidableEq

/-- The query-string parameters the list handlers read. -/
structure QueryParams where
  page : Option String := none
  limit : Option String := none
  status : Option String := none
deriving Repr, DecidableEq

/-- `page = Math.max(1, parseInt(q.page) || 1)`. -/
def pageOf (q : QueryParams) : Int :=
  max 1 (jsIntOr (q.page.bind jsParseInt) 1)

/-- `limit = Math.max(1, Math.min(100, parseInt(q.limit) || 10))`. -/
def limitOf (q : QueryParams) : Int :=
  max 1 (min 100 (jsIntOr (q.limit.bind jsParseInt) 10))

/-- `getEmployerJobs`: no authentication; filters by employer and the
optional exact `active`/`inactive` status value, orders newest-first,
applies `skip (page-1)*limit` / `take limit`, and reports
`pages = Math.ceil(total / limit)`. -/
def getEmployerJobs (idParam : String) (q : QueryParams)
    (s : Store) : JobsListResult :=
  match jsParseInt idParam with
  | none => { status := 500 }
  | some employerId =>
    let page := pageOf q
    let limit := limitOf q
    let matching := s.jobs.filter (fun j =>
      j.employerId == employerId &&
      (if q.status == some "active" then j.isActive
       else if q.status == some "inactive" then !j.isActive
       else true))
    let sorted := List.insertionSort newestFirst matching
    let pageItems := (sorted.drop ((page - 1) * limit).toNat).take limit.toNat
    { status := 200,
      jobs := pageItems.map (fun j =>
        { job := j,
          applicationCount :=
            (s.applications.filter (fun a => a.jobId == j.id)).length }),
      pagination := some
        { page := page, limit := limit, total := matching.length,
          pages := jsCeilDiv matching.length limit.toNat } }

/-- Build a stored form field from one input row of the `formFields`
array, for Prisma's nested `create`/`createMany`. -/
def mkFormField (jobId : Int) (f : FormFieldInput) : JobFormField :=
  { jobId := jobId, label := f.label, fieldType := f.fieldType,
    isRequired := f.isRequired, order := f.order }

/-- `createJob`: path id, body parse, auth, ownership (403), then a single
create of the job together with its nested form fields. `now` stands for
the database's `createdAt` default. -/
def createJob (idParam : String) (body : Except Unit JobCreateBody)
    (userId : Option Int) (now : Int) (s : Store) : Store × Nat :=
  match jsParseInt idParam with
  | none => (s, 500)
  | some employerId =>
    match body with
    | .error _ => (s, 400)
    | .ok data =>
      match userId with
      | none => (s, 401)
      | some uid =>
        match s.employers.find? (fun e => e.id == employerId) with
        | none => (s, 403)
        | some emp =>
          if emp.userId != uid then (s, 403)
          else
            let jid := nextJobId s
            ({ s with
               jobs := s.jobs ++
                 [{ id := jid, employerId := employerId,
                    title := data.title, role := data.role,
                    description := data.description,
                    requirements := data.requirements,
                    location := data.location, jobType := data.jobType,
                    salaryMin := data.salaryMin, salaryMax := data.salaryMax,
                    isActive := true, createdAt := now }],
               formFields := s.formFields ++
                 (data.formFields.getD []).map (mkFormField jid) }, 201)

/-- Apply a partial job update the way Prisma applies `data: jobData`:
only the keys present in the parsed body change. -/
def applyJobUpdate (j : Job) (u : JobUpdateBody) : Job :=
  { j with
    title := u.title.getD j.title,
    role := u.role.getD j.role,
    description := u.description.getD j.description,
    requirements := updOpt u.requirements j.requirements,
    location := updOpt u.location j.location,
    jobType := u.jobType.getD j.jobType,
    salaryMin := updOpt u.salaryMin j.salaryMin,
    salaryMax := updOpt u.salaryMax j.salaryMax }

/-- The body of `prisma.$transaction` in `updateJob`, with an external
failure oracle: `fail 0` aborts before the `job.update` statement, `fail 1`
before `jobFormField.deleteMany`, `fail 2` before
`jobFormField.createMany`, `fail 3` before the final read. `job.update`
itself aborts the transaction when no row matches `{ id, employerId }`
(Prisma error P2025). `none` means the whole transaction rolled back. -/
def updateJobTx (s : Store) (jobId employerId : Int) (data : JobUpdateBody)
    (fail : Nat → Bool) : Option Store :=
  if fail 0 then none
  else
    match s.jobs.find? (fun j => j.id == jobId && j.employerId == employerId) with
    | none => none
    | some _ =>
      let s1 := { s with jobs := s.jobs.map (fun j =>
        if j.id == jobId && j.employerId == employerId then
          applyJobUpdate j data
        else j) }
      match data.formFields with
      | some fs =>
        if fail 1 then none
        else
          let s2 := { s1 with formFields :=
            s1.formFields.filter (fun f => f.jobId != jobId) }
          if fail 2 then none
          else
            let s3 := { s2 with formFields :=
              s2.formFields ++ fs.map (mkFormField jobId) }
            if fail 3 then none else some s3
      | none => if fail 3 then none else some s1

/-- `updateJob`: path ids, partial body parse, auth, ownership of the path
employer (403), then the transaction; a rolled-back transaction surfaces as
500 with the store unchanged. -/
def updateJob (employerIdP jobIdP : String)
    (body : Except Unit JobUpdateBody) (userId : Option Int)
    (fail : Nat → Bool) (s : Store) : Store × Nat :=
  match jsParseInt employerIdP with
  | none => (s, 500)
  | some employerId =>
    match jsParseInt jobIdP with
    | none => (s, 500)
    | some jobId =>
      match body with
      | .error _ => (s, 400)
      | .ok data =>
        match userId with
        | none => (s, 401)
        | some uid =>
          match s.employers.find? (fun e => e.id == employerId) with
          | none => (s, 403)
          | some emp =>
            if emp.userId != uid then (s, 403)
            else
              match updateJobTx s jobId employerId data fail with
              | none => (s, 500)
              | some s2 => (s2, 200)

/-- `deleteJob`: path ids, auth, ownership (403), then a hard delete keyed
by `{ id, employerId }`; a missing row makes Prisma's `delete` throw,
surfacing as 500. -/
def deleteJob (employerIdP jobIdP : String) (userId : Option Int)
    (s : Store) : Store × Nat :=
  match jsParseInt employerIdP with
  | none => (s, 500)
  | some employerId =>
    match jsParseInt jobIdP with
    | none => (s, 500)
    | some jobId =>
      match userId with
      | none => (s, 401)
      | some uid =>
        match s.employers.find? (fun e => e.id == employerId) with
        | none => (s, 403)
        | some emp =>
          if emp.userId != uid then (s, 403)
          else
            match s.jobs.find? (fun j =>
                j.id == jobId && j.employerId == employerId) with
            | none => (s, 500)
            | some _ =>
              ({ s with jobs := s.jobs.filter (fun j =>
                  !(j.id == jobId && j.employerId == employerId)) }, 200)

structure AppsListResult where
  status : Nat
  applications : List Application := []
  pagination : Option Pagination := none
deriving Repr, DecidableEq

/-- Ordering used by `orderBy: { appliedAt: 'desc' }`. -/
def latestFirst (a b : Application) : Prop := b.appliedAt ≤ a.appliedAt

instance : DecidableRel latestFirst := fun a b =>
  inferInstanceAs (Decidable (b.appliedAt ≤ a.appliedAt))

/-- `getJobApplications`: path ids, page/limit, auth, ownership of the path
employer (403); the status filter is upper-cased and silently ignored when
not one of the seven enumerated values; newest-first, skip/take, and
`pages = Math.ceil(total / limit)`. -/
def getJobApplications (employerIdP jobIdP : String) (q : QueryParams)
    (userId : Option Int) (s : Store) : AppsListResult :=
  match jsParseInt employerIdP with
  | none => { status := 500 }
  | some employerId =>
    match jsParseInt jobIdP with
    | none => { status := 500 }
    | some jobId =>
      let page := pageOf q
      let limit := limitOf q
      match userId with
      | none => { status := 401 }
      | some uid =>
        match s.employers.find? (fun e => e.id == employerId) with
        | none => { status := 403 }
        | some emp =>
          if emp.userId != uid then { status := 403 }
          else
            let statusFilter : Option String :=
              match q.status with
              | some st =>
                if validStatuses.contains (jsToUpper st) then some (jsToUpper st)
                else none
              | none => none
            let matching := s.applications.filter (fun a =>
              a.jobId == jobId &&
              (match statusFilter with
               | some st => a.status == st
               | none => true))
            let sorted := List.insertionSort latestFirst matching
            let pageItems :=
              (sorted.drop ((page - 1) * limit).toNat).take limit.toNat
            { status := 200,
              applications := pageItems,
              pagination := some
                { page := page, limit := limit, total := matching.length,
                  pages := jsCeilDiv matching.length limit.toNat } }

/-- Does this application belong to a job of this employer
(`where: { id, job: { employerId } }`)? -/
def appUnderEmployer (s : Store) (employerId : Int) (a : Application) : Bool :=
  s.jobs.any (fun j => j.id == a.jobId && j.employerId == employerId)

/-- `updateApplicationStatus`: path ids, auth, membership of the new status
in the seven-value enumeration (400 otherwise), ownership of the path
employer (403), existence of the application under one of that employer's
jobs (404 otherwise), then an unconditional write of the new status. -/
def updateApplicationStatus (employerIdP applicationIdP : String)
    (newStatus : String) (userId : Option Int) (s : Store) : Store × Nat :=
  match jsParseInt employerIdP with
  | none => (s, 500)
  | some employerId =>
    match jsParseInt applicationIdP with
    | none => (s, 500)
    | some applicationId =>
      match userId with
      | none => (s, 401)
      | some uid =>
        if !(validStatuses.contains newStatus) then (s, 400)
        else
          match s.employers.find? (fun e => e.id == employerId) with
          | none => (s, 403)
          | some emp =>
            if emp.userId != uid then (s, 403)
            else
              match s.applications.find? (fun a =>
                  a.id == applicationId && appUnderEmployer s employerId a) with
              | none => (s, 404)
              | some _ =>
                ({ s with applications := s.applications.map (fun a =>
                    if a.id == applicationId then { a with status := newStatus }
                    else a) }, 200)

structure StatsResult where
  status : Nat
  totalJobs : Nat := 0
  activeJobs : Nat := 0
  inactiveJobs : Int := 0
  totalApps : Nat := 0
  pendingApps : Nat := 0
  acceptedApps : Nat := 0
  rejectedApps : Nat := 0
  reviewingApps : Int := 0
deriving Repr, DecidableEq

/-- `getEmployerStats`: path id, auth, ownership (403), six independent
counts, and the two derived numbers `inactive = total - active` and
`reviewing = total - pending - accepted - rejected`. -/
def getEmployerStats (idParam : String) (userId : Option Int)
    (s : Store) : StatsResult :=
  match jsParseInt idParam with
  | none => { status := 500 }
  | some employerId =>
    match userId with
    | none => { status := 401 }
    | some uid =>
      match s.employers.find? (fun e => e.id == employerId) with
      | none => { status := 403 }
      | some emp =>
        if emp.userId != uid then { status := 403 }
        else
          let totalJobs :=
            (s.jobs.filter (fun j => j.employerId == employerId)).length
          let activeJobs :=
            (s.jobs.filter (fun j =>
              j.employerId == employerId && j.isActive)).length
          let totalApps :=
            (s.applications.filter (appUnderEmployer s employerId)).length
          let pend := (s.applications.filter (fun a =>
            appUnderEmployer s employerId a && a.status == "PENDING")).length
          let acc := (s.applications.filter (fun a =>
            appUnderEmployer s employerId a && a.status == "ACCEPTED")).length
          let rej := (s.applications.filter (fun a =>
            appUnderEmployer s employerId a && a.status == "REJECTED")).length
          { status := 200,
            totalJobs := totalJobs, activeJobs := activeJobs,
            inactiveJobs := (totalJobs : Int) - (activeJobs : Int),
            totalApps := totalApps, pendingApps := pend,
            acceptedApps := acc, rejectedApps := rej,
            reviewingApps :=
              (totalApps : Int) - (pend : Int) - (acc : Int) - (rej : Int) }

/-! ## Route pipelines (the employer router applies
`authEmployer, requireCompleteProfile` before every handler) -/

/-- `POST /employer` as wired in the router: `authEmployer`, then
`requireCompleteProfile`, then `createEmployer`. -/
def postEmployerRoute (verify : String → Option JwtUserPayload)
    (r : AuthReq) (body : Except Unit EmployerBody)
    (s : Store) : Store × Nat :=
  match authEmployer verify s r with
  | .fail st => (s, st)
  | .ok u =>
    match requireCompleteProfile (some u) s with
    | some st => (s, st)
    | none => createEmployer body (some u.id) s

/-- `GET /employer/:id` as wired in the router: `authEmployer`, then
`requireCompleteProfile`, then `getEmployer`. -/
def getEmployerRoute (verify : String → Option JwtUserPayload)
    (r : AuthReq) (idParam : String) (s : Store) : GetEmployerResult :=
  match authEmployer verify s r with
  | .fail st => { status := st }
  | .ok u =>
    match requireCompleteProfile (some u) s with
    | some st => { status := st }
    | none => getEmployer idParam s

/-! ## Helper lemmas -/

/-- A selective in-place map updates exactly the row `find?` locates, when
the update does not change whether the predicate holds. -/
theorem find?_map_update {α : Type} (p : α → Bool) (f : α → α)
    (hf : ∀ a, p (f a) = p a) :
    ∀ l : List α,
      (l.map (fun a => if p a then f a else a)).find? p = (l.find? p).map f
  | [] => rfl
  | a :: l => by
    by_cases h : p a
    · simp [List.find?_cons, h, hf]
    · simp only [List.map_cons]
      rw [if_neg h, List.find?_cons_of_neg _ (by simp [h]),
        List.find?_cons_of_neg _ (by simp [h])]
      exact find?_map_update p f hf l

/-- Every element of a mapped list satisfies a predicate that holds of all
images, so filtering by it keeps the whole list. -/
theorem filter_map_self {α β : Type} (p : β → Bool) (f : α → β)
    (hf : ∀ a, p (f a) = true) (l : List α) :
    (l.map f).filter p = l.map f := by
  apply List.filter_eq_self.mpr
  intro b hb
  rcases List.mem_map.mp hb with ⟨a, _, rfl⟩
  exact hf a

/-- Filtering by `q` after removing everything satisfying `q` is empty. -/
theorem filter_filter_not {α : Type} (q : α → Bool) (l : List α) :
    (l.filter (fun a => !(q a))).filter q = [] := by
  induction l with
  | nil => rfl
  | cons a l ih =>
    by_cases h : q a <;> simp [List.filter_cons, h, ih]

/-! ## Claim theorems -/

/-- C1: an `updateJob` request that supplies a `formFields` list and passes
validation and the ownership check runs the job-attribute update, the
delete-all of the existing form fields and the insert-all of the new ones
as one atomic unit: whatever statement the failure oracle aborts, the
result is either the pre-update store unchanged (status 500), or a 200
response whose store holds the job with exactly the updated attributes and
whose form-field set for that job is exactly the new list — never a mix. -/
theorem c1_update_job_atomic
    (employerIdP jobIdP : String) (data : JobUpdateBody)
    (userId : Option Int) (fail : Nat → Bool) (s : Store)
    (eid jid uid : Int) (emp : Employer) (fs : List FormFieldInput)
    (hE : jsParseInt employerIdP = some eid)
    (hJ : jsParseInt jobIdP = some jid)
    (hff : data.formFields = some fs)
    (hu : userId = some uid)
    (hemp : s.employers.find? (fun e => e.id == eid) = some emp)
    (hown : emp.userId = uid) :
    updateJob employerIdP jobIdP (.ok data) userId fail s = (s, 500) ∨
      ((updateJob employerIdP jobIdP (.ok data) userId fail s).2 = 200 ∧
        (updateJob employerIdP jobIdP (.ok data) userId fail s).1.jobs.find?
            (fun j => j.id == jid && j.employerId == eid) =
          (s.jobs.find? (fun j => j.id == jid && j.employerId == eid)).map
            (fun j => applyJobUpdate j data) ∧
        (updateJob employerIdP jobIdP (.ok data) userId fail s).1.formFields.filter
            (fun f => f.jobId == jid) = fs.map (mkFormField jid)) := by
  simp only [updateJob, hE, hJ, hu, hemp]
  have hne : (emp.userId != uid) = false := by simp [hown]
  simp only [hne, Bool.false_eq_true, if_false]
  unfold updateJobTx
  by_cases h0 : fail 0
  · simp [h0]
  rcases hfind : s.jobs.find? (fun j => j.id == jid && j.employerId == eid)
    with _ | j0
  · simp [h0, hfind]
  simp only [h0, hfind, hff, Bool.false_eq_true, if_false]
  by_cases h1 : fail 1
  · simp [h1]
  by_cases h2 : fail 2
  · simp [h1, h2]
  by_cases h3 : fail 3
  · simp [h1, h2, h3]
  simp only [h1, h2, h3, Bool.false_eq_true, if_false]
  right
  refine ⟨trivial, ?_, ?_⟩
  · rw [find?_map_update (fun j => j.id == jid && j.employerId == eid)
      (fun j => applyJobUpdate j data) (fun j => by simp [applyJobUpdate])
      s.jobs, hfind]
  · rw [List.filter_append]
    have hdel :
        ((s.jobs.map fun j =>
            if j.id == jid && j.employerId == eid then applyJobUpdate j data
            else j, s.formFields.filter fun f => f.jobId != jid).2.filter
          fun f => f.jobId == jid) = [] := by
      simp only []
      have : (fun f : JobFormField => f.jobId != jid) =
          (fun f : JobFormField => !(f.jobId == jid)) := rfl
      rw [this, filter_filter_not]
    simp only [hdel]
    rw [List.nil_append]
    exact filter_map_self (fun f => f.jobId == jid) (mkFormField jid)
      (fun f => by simp [mkFormField]) fs

/-- Witness for C1 at a concrete request: employer 1 owned by user 9
updates job 2 with one new form field; the oracle never fails, and the
result is one of the two atomic outcomes. -/
theorem c1_update_job_atomic_witness :
    (updateJob "1" "2"
        (.ok { title := some "New",
               formFields := some [{ label := "Q", fieldType := "TEXT" }] })
        (some 9) (fun _ => false)
        { employers := [{ id := 1, userId := 9, companyName := "A" }],
          jobs := [{ id := 2, employerId := 1, title := "T",
                     role := "SOFTWARE_ENGINEER", description := "D",
                     jobType := "FULL_TIME" }],
          formFields := [{ jobId := 2, label := "old",
                           fieldType := "TEXT" }] }).2 = 500 ∨
    (updateJob "1" "2"
        (.ok { title := some "New",
               formFields := some [{ label := "Q", fieldType := "TEXT" }] })
        (some 9) (fun _ => false)
        { employers := [{ id := 1, userId := 9, companyName := "A" }],
          jobs := [{ id := 2, employerId := 1, title := "T",
                     role := "SOFTWARE_ENGINEER", description := "D",
                     jobType := "FULL_TIME" }],
          formFields := [{ jobId := 2, label := "old",
                           fieldType := "TEXT" }] }).2 = 200 := by
  rcases c1_update_job_atomic "1" "2"
      { title := some "New",
        formFields := some [{ label := "Q", fieldType := "TEXT" }] }
      (some 9) (fun _ => false)
      { employers := [{ id := 1, userId := 9, companyName := "A" }],
        jobs := [{ id := 2, employerId := 1, title := "T",
                   role := "SOFTWARE_ENGINEER", description := "D",
                   jobType := "FULL_TIME" }],
        formFields := [{ jobId := 2, label := "old", fieldType := "TEXT" }] }
      1 2 9 { id := 1, userId := 9, companyName := "A" }
      [{ label := "Q", fieldType := "TEXT" }]
      rfl rfl rfl rfl rfl rfl with h | h
  · exact Or.inl (by rw [h])
  · exact Or.inr h.1

/-- C2 counterexample: the claim as stated fails because input validation
runs before the ownership check. Employer 1 is owned by user 2, the actor
is user 9, yet an `updateEmployer` request whose body fails the schema
parse answers 400 — not 403 — while leaving the store unchanged. -/
theorem c2_ownership_counterexample :
    ({ employers := [{ id := 1, userId := 2, companyName := "C" }] } :
        Store).employers.find? (fun e => e.id == (1 : Int)) =
      some { id := 1, userId := 2, companyName := "C" } ∧
    (2 : Int) ≠ 9 ∧
    updateEmployer "1" (.error ()) (some 9)
        { employers := [{ id := 1, userId := 2, companyName := "C" }] } =
      ({ employers := [{ id := 1, userId := 2, companyName := "C" }] }, 400) ∧
    (400 : Nat) ≠ 403 ∧ (400 : Nat) ≠ 404 := by
  refine ⟨rfl, by decide, rfl, by decide, by decide⟩

/-- C2 amended: for every employer-gated mutating operation
(updateEmployer, deleteEmployer, createJob, updateJob, deleteJob,
updateApplicationStatus), provided the request is authenticated and has
already passed input validation (numeric path ids, a body that parses, a
status in the enumeration), if the targeted employer's owning account id
differs from the actor's id the operation responds 403 and performs no
store mutation; for updateApplicationStatus, when the path employer is
owned by the actor but the application is not under one of that employer's
jobs, the response is 404, again with no mutation. -/
theorem c2_ownership_amended :
    (∀ (idP : String) (body : EmployerBody) (uid : Int) (s : Store)
        (eid : Int) (emp : Employer),
        jsParseInt idP = some eid →
        s.employers.find? (fun e => e.id == eid) = some emp →
        emp.userId ≠ uid →
        updateEmployer idP (.ok body) (some uid) s = (s, 403)) ∧
    (∀ (idP : String) (uid : Int) (s : Store) (eid : Int) (emp : Employer),
        jsParseInt idP = some eid →
        s.employers.find? (fun e => e.id == eid) = some emp →
        emp.userId ≠ uid →
        deleteEmployer idP (some uid) s = (s, 403)) ∧
    (∀ (idP : String) (body : JobCreateBody) (uid now : Int) (s : Store)
        (eid : Int) (emp : Employer),
        jsParseInt idP = some eid →
        s.employers.find? (fun e => e.id == eid) = some emp →
        emp.userId ≠ uid →
        createJob idP (.ok body) (some uid) now s = (s, 403)) ∧
    (∀ (eP jP : String) (body : JobUpdateBody) (uid : Int)
        (fail : Nat → Bool) (s : Store) (eid jid : Int) (emp : Employer),
        jsParseInt eP = some eid →
        jsParseInt jP = some jid →
        s.employers.find? (fun e => e.id == eid) = some emp →
        emp.userId ≠ uid →
        updateJob eP jP (.ok body) (some uid) fail s = (s, 403)) ∧
    (∀ (eP jP : String) (uid : Int) (s : Store) (eid jid : Int)
        (emp : Employer),
        jsParseInt eP = some eid →
        jsParseInt jP = some jid →
        s.employers.find? (fun e => e.id == eid) = some emp →
        emp.userId ≠ uid →
        deleteJob eP jP (some uid) s = (s, 403)) ∧
    (∀ (eP aP : String) (newStatus : String) (uid : Int) (s : Store)
        (eid aid : Int) (emp : Employer),
        jsParseInt eP = some eid →
        jsParseInt aP = some aid →
        validStatuses.contains newStatus = true →
        s.employers.find? (fun e => e.id == eid) = some emp →
        emp.userId ≠ uid →
        updateApplicationStatus eP aP newStatus (some uid) s = (s, 403)) ∧
    (∀ (eP aP : String) (newStatus : String) (uid : Int) (s : Store)
        (eid aid : Int) (emp : Employer),
        jsParseInt eP = some eid →
        jsParseInt aP = some aid →
        validStatuses.contains newStatus = true →
        s.employers.find? (fun e => e.id == eid) = some emp →
        emp.userId = uid →
        s.applications.find?
            (fun a => a.id == aid && appUnderEmployer s eid a) = none →
        updateApplicationStatus eP aP newStatus (some uid) s = (s, 404)) := by
  refine ⟨?_, ?_, ?_, ?_, ?_, ?_, ?_⟩
  · intro idP body uid s eid emp hE hemp hne
    have h : (emp.userId != uid) = true := by simp [hne]
    simp [updateEmployer, hE, hemp, h]
  · intro idP uid s eid emp hE hemp hne
    have h : (emp.userId != uid) = true := by simp [hne]
    simp [deleteEmployer, hE, hemp, h]
  · intro idP body uid now s eid emp hE hemp hne
    have h : (emp.userId != uid) = true := by simp [hne]
    simp [createJob, hE, hemp, h]
  · intro eP jP body uid fail s eid jid emp hE hJ hemp hne
    have h : (emp.userId != uid) = true := by simp [hne]
    simp [updateJob, hE, hJ, hemp, h]
  · intro eP jP uid s eid jid emp hE hJ hemp hne
    have h : (emp.userId != uid) = true := by simp [hne]
    simp [deleteJob, hE, hJ, hemp, h]
  · intro eP aP newStatus uid s eid aid emp hE hA hv hemp hne
    have h : (emp.userId != uid) = true := by simp [hne]
    have hm : newStatus ∈ validStatuses := by simpa using hv
    simp [updateApplicationStatus, hE, hA, hv, hm, hemp, h]
  · intro eP aP newStatus uid s eid aid emp hE hA hv hemp hown hfind
    have h : (emp.userId != uid) = false := by simp [hown]
    have hm : newStatus ∈ validStatuses := by simpa using hv
    simp [updateApplicationStatus, hE, hA, hv, hm, hemp, h, hfind]

/-- Witness for C2 at concrete requests: employer 1 is owned by user 2 and
the actor is user 9, so `updateEmployer` with a valid body answers 403
with the store unchanged; and for an owned employer with no matching
application, `updateApplicationStatus` answers 404 unchanged. -/
theorem c2_ownership_witness :
    updateEmployer "1" (.ok { companyName := "Acme" }) (some 9)
        { employers := [{ id := 1, userId := 2, companyName := "C" }] } =
      ({ employers := [{ id := 1, userId := 2, companyName := "C" }] }, 403) ∧
    updateApplicationStatus "1" "7" "ACCEPTED" (some 2)
        { employers := [{ id := 1, userId := 2, companyName := "C" }] } =
      ({ employers := [{ id := 1, userId := 2, companyName := "C" }] }, 404) := by
  constructor
  · exact c2_ownership_amended.1 "1" { companyName := "Acme" } 9
      { employers := [{ id := 1, userId := 2, companyName := "C" }] } 1
      { id := 1, userId := 2, companyName := "C" } rfl rfl (by decide)
  · exact c2_ownership_amended.2.2.2.2.2.2 "1" "7" "ACCEPTED" 2
      { employers := [{ id := 1, userId := 2, companyName := "C" }] } 1 7
      { id := 1, userId := 2, companyName := "C" } rfl rfl (by decide) rfl
      rfl rfl

/-- C3 counterexample: the login handler only accepts roles whose
upper-case form is ADMIN or STUDENT. With role "employer" — even though an
account with email "a@b.com" and a matching password is stored in both
account tables — the response is 400 "Invalid role", not 200, and no
cookie is set. -/
theorem c3_login_counterexample :
    handleLogin (fun p h => p == h)
        { email := some "a@b.com", password := some "secret",
          role := some "employer" }
        { students := [{ id := 5, email := "a@b.com", name := "Ann",
                         password := "secret" }],
          admins := [{ id := 6, email := "a@b.com", name := "Al",
                       password := "secret" }] } =
      { status := 400 } ∧ (400 : Nat) ≠ 200 := ⟨rfl, by decide⟩

/-- C3 amended: login succeeds only for the admin/student subsystem. For a
request whose role upper-cases to STUDENT, with truthy email, password and
role, a stored student with that email, and a bcrypt comparison that
accepts, the response is 200 with the cookie set and body
`user = {email, userId, role as sent, name (defaulted when empty)}`. -/
theorem c3_login_amended
    (compare : String → String → Bool) (body : LoginBody) (s : Store)
    (e pw r : String) (stu : Student)
    (he : body.email = some e) (hpw : body.password = some pw)
    (hr : body.role = some r)
    (hte : e ≠ "") (htp : pw ≠ "") (htr : r ≠ "")
    (hru : jsToUpper r = "STUDENT")
    (hfind : s.students.find? (fun st => st.email == e) = some stu)
    (hcmp : compare pw stu.password = true) :
    handleLogin compare body s =
      { status := 200, cookieSet := true,
        userEmail := some stu.email, userId := some stu.id,
        userRole := some r,
        userName := some (jsStrOr stu.name "No Name Provided") } := by
  simp [handleLogin, he, hpw, hr, hru, hfind, hcmp, strTruthy, hte, htp, htr]

/-- Witness for C3 at a concrete request: role "student", matching stored
password, successful login body. -/
theorem c3_login_witness :
    handleLogin (fun p h => p == h)
        { email := some "s@x.com", password := some "pw",
          role := some "student" }
        { students := [{ id := 3, email := "s@x.com", name := "Stu",
                         password := "pw" }] } =
      { status := 200, cookieSet := true, userEmail := some "s@x.com",
        userId := some 3, userRole := some "student",
        userName := some "Stu" } := by
  have h := c3_login_amended (fun p h => p == h)
    { email := some "s@x.com", password := some "pw",
      role := some "student" }
    { students := [{ id := 3, email := "s@x.com", name := "Stu",
                     password := "pw" }] }
    "s@x.com" "pw" "student"
    { id := 3, email := "s@x.com", name := "Stu", password := "pw" }
    rfl rfl rfl (by decide) (by decide) (by decide) rfl rfl rfl
  simpa [jsStrOr] using h

/-- C4 counterexample: `authAdmin` never reads the Authorization header.
With a valid Bearer token in the header and no cookie it answers 401, while
the very same token delivered through the cookie succeeds — so the claimed
header-preference does not hold for this variant. -/
theorem c4_token_source_counterexample :
    authAdmin
        (fun t => if t == "tok" then
            some { emailId := "a@x", role := "ADMIN" } else none)
        { admins := [{ id := 1, email := "a@x", name := "A",
                       password := "p" }] }
        { authHeader := some "Bearer tok", cookieToken := none } =
      .fail 401 ∧
    authAdmin
        (fun t => if t == "tok" then
            some { emailId := "a@x", role := "ADMIN" } else none)
        { admins := [{ id := 1, email := "a@x", name := "A",
                       password := "p" }] }
        { authHeader := none, cookieToken := some "tok" } =
      .okAdmin { id := 1, email := "a@x", name := "A", password := "p" } :=
  ⟨rfl, rfl⟩

/-- C4 amended: `authenticate`, `authEmployer` and `authJobSeeker` prefer
the Authorization header (with "Bearer " stripped) and fall back to the
`token` cookie, failing 401 when both are absent; but `authAdmin`,
`authStudent` and `authDynamic` read only the cookie, failing 401 whenever
the cookie is absent even if a Bearer header is present. -/
theorem c4_token_source_amended :
    (∀ (v : String → Option JwtUserPayload) (s : Store) (r : AuthReq),
        r.authHeader = none → r.cookieToken = none →
        authenticate v s r = .fail 401 ∧ authEmployer v s r = .fail 401 ∧
        authJobSeeker v s r = .fail 401) ∧
    (∀ (v : String → Option JwtUserPayload) (s : Store) (h : String)
        (c : Option String), dropFirstOccurrence h "Bearer " ≠ "" →
        authenticate v s { authHeader := some h, cookieToken := c } =
          authenticate v s { authHeader := some h, cookieToken := none } ∧
        authEmployer v s { authHeader := some h, cookieToken := c } =
          authEmployer v s { authHeader := some h, cookieToken := none } ∧
        authJobSeeker v s { authHeader := some h, cookieToken := c } =
          authJobSeeker v s { authHeader := some h, cookieToken := none }) ∧
    (∀ (c : Option String),
        extractToken { authHeader := none, cookieToken := c } = c) ∧
    (∀ (vE : String → Option JwtEmailPayload)
        (vU : String → Option JwtUserPayload) (s : Store)
        (hdr : Option String),
        authAdmin vE s { authHeader := hdr, cookieToken := none } =
          .fail 401 ∧
        authStudent vE s { authHeader := hdr, cookieToken := none } =
          .fail 401 ∧
        authDynamic vE vU s { authHeader := hdr, cookieToken := none } =
          .fail 401) := by
  refine ⟨?_, ?_, ?_, ?_⟩
  · intro v s r ha hc
    refine ⟨?_, ?_, ?_⟩ <;>
      simp [authenticate, authEmployer, authJobSeeker, extractToken, ha, hc]
  · intro v s h c hne
    have hb : (dropFirstOccurrence h "Bearer " == "") = false := by
      simpa using hne
    refine ⟨?_, ?_, ?_⟩ <;>
      simp [authenticate, authEmployer, authJobSeeker, extractToken, hb]
  · intro c
    simp [extractToken]
  · intro vE vU s hdr
    refine ⟨rfl, rfl, rfl⟩

/-- Witness for C4 at concrete requests: a credential-free request fails
401 for `authenticate`, and a header-carrying request ignores the cookie
for `authEmployer`. -/
theorem c4_token_source_witness :
    authenticate (fun _ => none) {} {} = .fail 401 ∧
    authEmployer (fun _ => none) {}
        { authHeader := some "Bearer abc", cookieToken := some "zzz" } =
      authEmployer (fun _ => none) {}
        { authHeader := some "Bearer abc", cookieToken := none } := by
  constructor
  · exact (c4_token_source_amended.1 (fun _ => none) {} {} rfl rfl).1
  · exact (c4_token_source_amended.2.1 (fun _ => none) {} "Bearer abc"
      (some "zzz") (by decide)).2.1

/-- `(t + l - 1) / l` is the ceiling of the exact division `t / l`. -/
theorem jsCeilDiv_eq_ceil (t l : Nat) (hl : 0 < l) :
    jsCeilDiv t l = ⌈(t : ℚ) / (l : ℚ)⌉₊ := by
  have hl' : (0 : ℚ) < (l : ℚ) := by exact_mod_cast hl
  have hdm := Nat.div_add_mod (t + l - 1) l
  have hr : (t + l - 1) % l < l := Nat.mod_lt _ hl
  rcases Nat.eq_zero_or_pos t with ht | ht
  · subst ht
    have : jsCeilDiv 0 l = 0 := by
      unfold jsCeilDiv
      exact Nat.div_eq_of_lt (by omega)
    rw [this]
    simp
  · unfold jsCeilDiv
    set n := (t + l - 1) / l with hn
    set r := (t + l - 1) % l with hrdef
    rcases Nat.eq_zero_or_pos n with h0 | hpos
    · exfalso
      rw [h0, Nat.mul_zero] at hdm
      omega
    · obtain ⟨k, hk⟩ : ∃ k, n = k + 1 := ⟨n - 1, by omega⟩
      rw [hk] at hdm ⊢
      rw [Nat.mul_add, Nat.mul_one] at hdm
      have hub : t ≤ l * k + l := by omega
      have hlb : l * k < t := by omega
      symm
      rw [Nat.ceil_eq_iff (by omega : k + 1 ≠ 0)]
      constructor
      · rw [lt_div_iff₀ hl']
        have : (k : ℚ) * (l : ℚ) < (t : ℚ) := by
          exact_mod_cast Nat.mul_comm l k ▸ hlb
        simpa using this
      · rw [div_le_iff₀ hl']
        have : (t : ℚ) ≤ ((k : ℚ) + 1) * (l : ℚ) := by
          have h2 : t ≤ (k + 1) * l := by
            calc t ≤ l * k + l := hub
            _ = (k + 1) * l := by ring
          exact_mod_cast h2
        simpa using this

/-- C5 counterexample: a non-numeric path id does not produce a 400
ValidationError. `parseInteger` throws a plain `Error`, which the catch
block maps to 500, as `getEmployer "abc"` shows. -/
theorem c5_nonnumeric_counterexample :
    getEmployer "abc"
        { employers := [{ id := 1, userId := 2, companyName := "C" }] } =
      { status := 500 } ∧ (500 : Nat) ≠ 400 := ⟨rfl, by decide⟩

/-- C5 amended: for every resource handler, a path id whose `parseInt` is
NaN makes the handler respond 500 (the generic internal-error mapping, not
a 400 ValidationError) and perform no store operation. -/
theorem c5_nonnumeric_amended (p : String) (hp : jsParseInt p = none) :
    (∀ s : Store, getEmployer p s = { status := 500 }) ∧
    (∀ (b : Except Unit EmployerBody) (u : Option Int) (s : Store),
      updateEmployer p b u s = (s, 500)) ∧
    (∀ (u : Option Int) (s : Store), deleteEmployer p u s = (s, 500)) ∧
    (∀ (q : QueryParams) (s : Store),
      getEmployerJobs p q s = { status := 500 }) ∧
    (∀ (b : Except Unit JobCreateBody) (u : Option Int) (now : Int)
      (s : Store), createJob p b u now s = (s, 500)) ∧
    (∀ (jP : String) (b : Except Unit JobUpdateBody) (u : Option Int)
      (fail : Nat → Bool) (s : Store), updateJob p jP b u fail s = (s, 500)) ∧
    (∀ (jP : String) (u : Option Int) (s : Store),
      deleteJob p jP u s = (s, 500)) ∧
    (∀ (jP : String) (q : QueryParams) (u : Option Int) (s : Store),
      getJobApplications p jP q u s = { status := 500 }) ∧
    (∀ (aP newStatus : String) (u : Option Int) (s : Store),
      updateApplicationStatus p aP newStatus u s = (s, 500)) ∧
    (∀ (u : Option Int) (s : Store),
      getEmployerStats p u s = { status := 500 }) := by
  refine ⟨?_, ?_, ?_, ?_, ?_, ?_, ?_, ?_, ?_, ?_⟩ <;> intros <;>
    simp [getEmployer, updateEmployer, deleteEmployer, getEmployerJobs,
      createJob, updateJob, deleteJob, getJobApplications,
      updateApplicationStatus, getEmployerStats, hp]

/-- Witness for C5 at the concrete non-numeric id "abc": deleteEmployer
answers 500 and leaves the store unchanged. -/
theorem c5_nonnumeric_witness :
    deleteEmployer "abc" (some 9)
        { employers := [{ id := 1, userId := 9, companyName := "C" }] } =
      ({ employers := [{ id := 1, userId := 9, companyName := "C" }] },
        500) :=
  (c5_nonnumeric_amended "abc" rfl).2.2.1 (some 9)
    { employers := [{ id := 1, userId := 9, companyName := "C" }] }

theorem limitOf_lower (q : QueryParams) : 1 ≤ limitOf q :=
  le_max_left 1 _

theorem limitOf_upper (q : QueryParams) : limitOf q ≤ 100 :=
  max_le (by norm_num) (min_le_left _ _)

theorem pageOf_pos (q : QueryParams) : 1 ≤ pageOf q :=
  le_max_left 1 _

theorem pageOf_default (q : QueryParams) (h : q.page = none) :
    pageOf q = 1 := by
  simp [pageOf, h, jsIntOr]

theorem limitOf_default (q : QueryParams) (h : q.limit = none) :
    limitOf q = 10 := by
  simp [limitOf, h, jsIntOr]

/-- The `pages` field computed by the handlers is the rational ceiling of
`total / limit`. -/
theorem pages_eq_ceil (total : Nat) (limit : Int) (h1 : 1 ≤ limit) :
    jsCeilDiv total limit.toNat = ⌈(total : ℚ) / (limit : ℚ)⌉₊ := by
  have hl : 0 < limit.toNat := by omega
  rw [jsCeilDiv_eq_ceil total _ hl]
  have hcast : ((limit.toNat : ℕ) : ℚ) = ((limit : ℤ) : ℚ) := by
    have h2 := Int.toNat_of_nonneg (by omega : (0 : ℤ) ≤ limit)
    exact_mod_cast congrArg (fun z : ℤ => (z : ℚ)) h2
  rw [hcast]

/-- C6: in `getEmployerJobs` and `getJobApplications`, page defaults to 1,
limit is clamped into [1,100] with default 10, at most `limit` items are
returned, and `pages` is the ceiling of `total / limit`. -/
theorem c6_pagination
    (idP jobP : String) (q : QueryParams) (s : Store)
    (eid jid uid : Int) (emp : Employer)
    (hE : jsParseInt idP = some eid)
    (hJ : jsParseInt jobP = some jid)
    (hemp : s.employers.find? (fun e => e.id == eid) = some emp)
    (hown : emp.userId = uid) :
    (∃ pg : Pagination,
      (getEmployerJobs idP q s).pagination = some pg ∧
      1 ≤ pg.limit ∧ pg.limit ≤ 100 ∧ 1 ≤ pg.page ∧
      (q.page = none → pg.page = 1) ∧
      (q.limit = none → pg.limit = 10) ∧
      (getEmployerJobs idP q s).jobs.length ≤ pg.limit.toNat ∧
      pg.pages = ⌈(pg.total : ℚ) / (pg.limit : ℚ)⌉₊) ∧
    (∃ pg : Pagination,
      (getJobApplications idP jobP q (some uid) s).pagination = some pg ∧
      1 ≤ pg.limit ∧ pg.limit ≤ 100 ∧ 1 ≤ pg.page ∧
      (q.page = none → pg.page = 1) ∧
      (q.limit = none → pg.limit = 10) ∧
      (getJobApplications idP jobP q (some uid) s).applications.length ≤
        pg.limit.toNat ∧
      pg.pages = ⌈(pg.total : ℚ) / (pg.limit : ℚ)⌉₊) := by
  have hne : (emp.userId != uid) = false := by simp [hown]
  constructor
  · simp only [getEmployerJobs, hE]
    refine ⟨_, rfl, limitOf_lower q, limitOf_upper q, pageOf_pos q,
      fun h => pageOf_default q h, fun h => limitOf_default q h, ?_, ?_⟩
    · calc (List.map _ _).length = _ := List.length_map _ _
      _ ≤ (limitOf q).toNat := List.length_take_le _ _
    · exact pages_eq_ceil _ _ (limitOf_lower q)
  · simp only [getJobApplications, hE, hJ, hemp, hne, Bool.false_eq_true,
      if_false]
    refine ⟨_, rfl, limitOf_lower q, limitOf_upper q, pageOf_pos q,
      fun h => pageOf_default q h, fun h => limitOf_default q h, ?_, ?_⟩
    · exact List.length_take_le _ _
    · exact pages_eq_ceil _ _ (limitOf_lower q)

/-- Witness for C6 at a concrete request: a caller asking for limit 1000
gets it clamped to 100, and the pagination facts hold on employer 1 owned
by user 9. -/
theorem c6_pagination_witness :
    (∃ pg : Pagination,
      (getEmployerJobs "1" { limit := some "1000" }
          { employers := [{ id := 1, userId := 9,
                            companyName := "C" }] }).pagination = some pg ∧
      1 ≤ pg.limit ∧ pg.limit ≤ 100 ∧ 1 ≤ pg.page ∧
      ((none : Option String) = none → pg.page = 1) ∧
      ((some "1000" : Option String) = none → pg.limit = 10) ∧
      (getEmployerJobs "1" { limit := some "1000" }
          { employers := [{ id := 1, userId := 9,
                            companyName := "C" }] }).jobs.length ≤
        pg.limit.toNat ∧
      pg.pages = ⌈(pg.total : ℚ) / (pg.limit : ℚ)⌉₊) := by
  have h := c6_pagination "1" "2" { limit := some "1000" }
    { employers := [{ id := 1, userId := 9, companyName := "C" }] }
    1 2 9 { id := 1, userId := 9, companyName := "C" } rfl rfl rfl rfl
  rcases h.1 with ⟨pg, h1, h2, h3, h4, h5, _, h7, h8⟩
  exact ⟨pg, h1, h2, h3, h4, h5, fun hcon => Option.noConfusion hcon,
    h7, h8⟩

/-- C7: for an authenticated `updateApplicationStatus` request with numeric
path ids: a status outside the seven enumerated values answers 400 with no
mutation; with a valid status and the path employer owned by the actor, an
application that is not under one of that employer's jobs answers 404 (not
403) with no mutation; otherwise the new status is written unconditionally,
whatever the current status. -/
theorem c7_application_status
    (eP aP : String) (newStatus : String) (uid : Int) (s : Store)
    (eid aid : Int)
    (hE : jsParseInt eP = some eid) (hA : jsParseInt aP = some aid) :
    (validStatuses.contains newStatus = false →
      updateApplicationStatus eP aP newStatus (some uid) s = (s, 400)) ∧
    (∀ emp : Employer,
      validStatuses.contains newStatus = true →
      s.employers.find? (fun e => e.id == eid) = some emp →
      emp.userId = uid →
      s.applications.find?
          (fun a => a.id == aid && appUnderEmployer s eid a) = none →
      updateApplicationStatus eP aP newStatus (some uid) s = (s, 404) ∧
        (404 : Nat) ≠ 403) ∧
    (∀ (emp : Employer) (app : Application),
      validStatuses.contains newStatus = true →
      s.employers.find? (fun e => e.id == eid) = some emp →
      emp.userId = uid →
      s.applications.find?
          (fun a => a.id == aid && appUnderEmployer s eid a) = some app →
      (updateApplicationStatus eP aP newStatus (some uid) s).2 = 200 ∧
      (updateApplicationStatus eP aP newStatus
            (some uid) s).1.applications.find? (fun a => a.id == aid) =
        (s.applications.find? (fun a => a.id == aid)).map
          (fun a => { a with status := newStatus })) := by
  refine ⟨?_, ?_, ?_⟩
  · intro hv
    have hnm : ¬ (newStatus ∈ validStatuses) := by simpa using hv
    simp [updateApplicationStatus, hE, hA, hnm]
  · intro emp hv hemp hown hfind
    have h : (emp.userId != uid) = false := by simp [hown]
    have hm : newStatus ∈ validStatuses := by simpa using hv
    refine ⟨?_, by decide⟩
    simp [updateApplicationStatus, hE, hA, hv, hm, hemp, h, hfind]
  · intro emp app hv hemp hown hfind
    have h : (emp.userId != uid) = false := by simp [hown]
    have hm : newStatus ∈ validStatuses := by simpa using hv
    have key := find?_map_update (fun a : Application => a.id == aid)
      (fun a => { a with status := newStatus }) (fun a => by simp)
      s.applications
    constructor
    · simp [updateApplicationStatus, hE, hA, hm, hemp, h, hfind]
    · simp only [updateApplicationStatus, hE, hA, hemp, h, hfind,
        Bool.false_eq_true, if_false]
      have hc : (!validStatuses.contains newStatus) = false := by
        simpa using hm
      simp only [hc, Bool.false_eq_true, if_false]
      exact key

/-- Witness for C7 at the spec's concrete scenario: a PATCH of application
9 with status "APPROVED" — not in the enumeration — answers 400 and leaves
the store unchanged. -/
theorem c7_application_status_witness :
    updateApplicationStatus "1" "9" "APPROVED" (some 9)
        { employers := [{ id := 1, userId := 9, companyName := "C" }],
          jobs := [{ id := 2, employerId := 1, title := "T",
                     role := "SOFTWARE_ENGINEER", description := "D",
                     jobType := "FULL_TIME" }],
          applications := [{ id := 9, jobId := 2, jobSeekerId := 4,
                             status := "PENDING" }] } =
      ({ employers := [{ id := 1, userId := 9, companyName := "C" }],
         jobs := [{ id := 2, employerId := 1, title := "T",
                    role := "SOFTWARE_ENGINEER", description := "D",
                    jobType := "FULL_TIME" }],
         applications := [{ id := 9, jobId := 2, jobSeekerId := 4,
                            status := "PENDING" }] }, 400) :=
  (c7_application_status "1" "9" "APPROVED" 9
      { employers := [{ id := 1, userId := 9, companyName := "C" }],
        jobs := [{ id := 2, employerId := 1, title := "T",
                   role := "SOFTWARE_ENGINEER", description := "D",
                   jobType := "FULL_TIME" }],
        applications := [{ id := 9, jobId := 2, jobSeekerId := 4,
                           status := "PENDING" }] }
      1 9 rfl rfl).1 rfl

instance : IsTotal Job newestFirst :=
  ⟨fun a b => le_total b.createdAt a.createdAt⟩

instance : IsTrans Job newestFirst :=
  ⟨fun _ _ _ hab hbc => le_trans hbc hab⟩

/-- C8 counterexample: `GET /employer/:id` is not public. The router runs
`authEmployer` and `requireCompleteProfile` before `getEmployer`, so a
request with no credential answers 401 even though employer 5 exists —
while the bare handler alone would answer 200. -/
theorem c8_public_read_counterexample :
    (getEmployerRoute (fun _ => none) {} "5"
        { employers := [{ id := 5, userId := 9,
                          companyName := "C" }] }).status = 401 ∧
    (getEmployer "5"
        { employers := [{ id := 5, userId := 9,
                          companyName := "C" }] }).status = 200 :=
  ⟨rfl, rfl⟩

/-- C8 amended: the `getEmployer` handler itself consults no authenticated
identity, but the wired route is gated, so a credential-free request gets
401; once past the gate, an existing employer id returns 200 with the
profile and its jobs ordered newest-first by creation timestamp, each
annotated with its application count and all belonging to that employer,
and a missing id returns 404. -/
theorem c8_get_employer_amended :
    (∀ (v : String → Option JwtUserPayload) (s : Store) (r : AuthReq)
        (idP : String), r.authHeader = none → r.cookieToken = none →
        getEmployerRoute v r idP s = { status := 401 }) ∧
    (∀ (idP : String) (s : Store) (eid : Int) (emp : Employer),
        jsParseInt idP = some eid →
        s.employers.find? (fun e => e.id == eid) = some emp →
        (getEmployer idP s).status = 200 ∧
        (getEmployer idP s).employer = some emp ∧
        List.Sorted newestFirst
          ((getEmployer idP s).jobs.map JobWithCount.job) ∧
        (∀ jc ∈ (getEmployer idP s).jobs,
          jc.applicationCount =
            (s.applications.filter
              (fun a => a.jobId == jc.job.id)).length ∧
          jc.job.employerId = eid)) ∧
    (∀ (idP : String) (s : Store) (eid : Int),
        jsParseInt idP = some eid →
        s.employers.find? (fun e => e.id == eid) = none →
        getEmployer idP s = { status := 404 }) := by
  refine ⟨?_, ?_, ?_⟩
  · intro v s r idP ha hc
    simp [getEmployerRoute, authEmployer, extractToken, ha, hc]
  · intro idP s eid emp hE hemp
    simp only [getEmployer, hE, hemp]
    refine ⟨trivial, trivial, ?_, ?_⟩
    · rw [List.map_map]
      have hcomp :
          (JobWithCount.job ∘ fun j => JobWithCount.mk j
            ((s.applications.filter (fun a => a.jobId == j.id)).length)) =
          id := rfl
      rw [hcomp, List.map_id]
      exact List.sorted_insertionSort newestFirst _
    · intro jc hjc
      rcases List.mem_map.mp hjc with ⟨j, hj, rfl⟩
      refine ⟨rfl, ?_⟩
      have hj2 : j ∈ s.jobs.filter (fun j => j.employerId == eid) :=
        (List.perm_insertionSort newestFirst _).subset hj
      simpa using (List.mem_filter.mp hj2).2
  · intro idP s eid hE hnone
    simp [getEmployer, hE, hnone]

/-- Witness for C8 at a concrete store: employer 5 with two jobs, read
through the bare handler after the gate. -/
theorem c8_get_employer_amended_witness :
    (getEmployer "5"
        { employers := [{ id := 5, userId := 9, companyName := "C" }],
          jobs := [{ id := 1, employerId := 5, title := "Old",
                     role := "SOFTWARE_ENGINEER", description := "D",
                     jobType := "FULL_TIME", createdAt := 1 },
                   { id := 2, employerId := 5, title := "New",
                     role := "SOFTWARE_ENGINEER", description := "D",
                     jobType := "FULL_TIME", createdAt := 2 }] }).status =
      200 ∧
    List.Sorted newestFirst
      ((getEmployer "5"
          { employers := [{ id := 5, userId := 9, companyName := "C" }],
            jobs := [{ id := 1, employerId := 5, title := "Old",
                       role := "SOFTWARE_ENGINEER", description := "D",
                       jobType := "FULL_TIME", createdAt := 1 },
                     { id := 2, employerId := 5, title := "New",
                       role := "SOFTWARE_ENGINEER", description := "D",
                       jobType := "FULL_TIME",
                       createdAt := 2 }] }).jobs.map JobWithCount.job) := by
  have h := c8_get_employer_amended.2.1 "5"
    { employers := [{ id := 5, userId := 9, companyName := "C" }],
      jobs := [{ id := 1, employerId := 5, title := "Old",
                 role := "SOFTWARE_ENGINEER", description := "D",
                 jobType := "FULL_TIME", createdAt := 1 },
               { id := 2, employerId := 5, title := "New",
                 role := "SOFTWARE_ENGINEER", description := "D",
                 jobType := "FULL_TIME", createdAt := 2 }] }
    5 { id := 5, userId := 9, companyName := "C" } rfl rfl
  exact ⟨h.1, h.2.2.1⟩

/-- Partition of a filtered application count by the three explicitly
counted statuses and the remainder. -/
theorem length_filter_partition (l : List Application)
    (b : Application → Bool) :
    (l.filter b).length =
      (l.filter (fun a => b a && a.status == "PENDING")).length +
      (l.filter (fun a => b a && a.status == "ACCEPTED")).length +
      (l.filter (fun a => b a && a.status == "REJECTED")).length +
      (l.filter (fun a => b a &&
        !(a.status == "PENDING" || a.status == "ACCEPTED" ||
          a.status == "REJECTED"))).length := by
  induction l with
  | nil => rfl
  | cons a t ih =>
    simp only [List.filter_cons]
    by_cases hb : b a
    · by_cases h1 : a.status = "PENDING"
      · simp [hb, h1, ih]
        omega
      · by_cases h2 : a.status = "ACCEPTED"
        · simp [hb, h1, h2, ih]
          omega
        · by_cases h3 : a.status = "REJECTED"
          · simp [hb, h1, h2, h3, ih]
            omega
          · simp [hb, h1, h2, h3, ih]
            omega
    · simp [hb, ih]

/-- C9: for a `getEmployerStats` request that passes the ownership check,
inactive jobs equal total minus active, reviewing applications equal total
minus pending minus accepted minus rejected — which is exactly the count
of this employer's applications whose status lies outside
{PENDING, ACCEPTED, REJECTED}; when every stored status is one of the
seven enumerated values, that bucket is precisely
{REVIEWING, SHORTLISTED, INTERVIEWED, WITHDRAWN}. -/
theorem c9_stats
    (idP : String) (uid : Int) (s : Store) (eid : Int) (emp : Employer)
    (hE : jsParseInt idP = some eid)
    (hemp : s.employers.find? (fun e => e.id == eid) = some emp)
    (hown : emp.userId = uid) :
    (getEmployerStats idP (some uid) s).status = 200 ∧
    (getEmployerStats idP (some uid) s).inactiveJobs =
      ((getEmployerStats idP (some uid) s).totalJobs : Int) -
        ((getEmployerStats idP (some uid) s).activeJobs : Int) ∧
    (getEmployerStats idP (some uid) s).reviewingApps =
      ((getEmployerStats idP (some uid) s).totalApps : Int) -
        ((getEmployerStats idP (some uid) s).pendingApps : Int) -
        ((getEmployerStats idP (some uid) s).acceptedApps : Int) -
        ((getEmployerStats idP (some uid) s).rejectedApps : Int) ∧
    (getEmployerStats idP (some uid) s).reviewingApps =
      ((s.applications.filter (fun a =>
        appUnderEmployer s eid a &&
        !(a.status == "PENDING" || a.status == "ACCEPTED" ||
          a.status == "REJECTED"))).length : Int) ∧
    ((∀ a ∈ s.applications, a.status ∈ validStatuses) →
      (getEmployerStats idP (some uid) s).reviewingApps =
        ((s.applications.filter (fun a =>
          appUnderEmployer s eid a &&
          (a.status == "REVIEWING" || a.status == "SHORTLISTED" ||
           a.status == "INTERVIEWED" ||
           a.status == "WITHDRAWN"))).length : Int)) := by
  have hne : (emp.userId != uid) = false := by simp [hown]
  have hpart := length_filter_partition s.applications
    (appUnderEmployer s eid)
  simp only [getEmployerStats, hE, hemp, hne, Bool.false_eq_true, if_false]
  refine ⟨trivial, trivial, trivial, ?_, ?_⟩
  · omega
  · intro h7
    have hfeq : s.applications.filter (fun a =>
        appUnderEmployer s eid a &&
        !(a.status == "PENDING" || a.status == "ACCEPTED" ||
          a.status == "REJECTED")) =
      s.applications.filter (fun a =>
        appUnderEmployer s eid a &&
        (a.status == "REVIEWING" || a.status == "SHORTLISTED" ||
         a.status == "INTERVIEWED" || a.status == "WITHDRAWN")) := by
      apply List.filter_congr
      intro a ha
      have hmem : a.status ∈ validStatuses := h7 a ha
      simp only [validStatuses, List.mem_cons, List.mem_singleton,
        List.not_mem_nil, or_false] at hmem
      rcases hmem with h | h | h | h | h | h | h <;> simp [h]
    rw [← hfeq]
    omega

/-- Witness for C9 at a concrete store: employer 1 (owned by user 9) with
one SHORTLISTED and one PENDING application; the reviewing bucket counts
exactly the applications outside \x7bPENDING, ACCEPTED, REJECTED\x7d. -/
theorem c9_stats_witness :
    (getEmployerStats "1" (some 9)
        { employers := [{ id := 1, userId := 9, companyName := "C" }],
          jobs := [{ id := 2, employerId := 1, title := "T",
                     role := "SOFTWARE_ENGINEER", description := "D",
                     jobType := "FULL_TIME" }],
          applications := [{ id := 1, jobId := 2, jobSeekerId := 1,
                             status := "SHORTLISTED" },
                           { id := 2, jobId := 2, jobSeekerId := 2,
                             status := "PENDING" }] }).reviewingApps =
      ((({ employers := [{ id := 1, userId := 9, companyName := "C" }],
           jobs := [{ id := 2, employerId := 1, title := "T",
                      role := "SOFTWARE_ENGINEER", description := "D",
                      jobType := "FULL_TIME" }],
           applications := [{ id := 1, jobId := 2, jobSeekerId := 1,
                              status := "SHORTLISTED" },
                            { id := 2, jobId := 2, jobSeekerId := 2,
                              status := "PENDING" }] } :
          Store).applications.filter (fun a =>
        appUnderEmployer
          { employers := [{ id := 1, userId := 9, companyName := "C" }],
            jobs := [{ id := 2, employerId := 1, title := "T",
                       role := "SOFTWARE_ENGINEER", description := "D",
                       jobType := "FULL_TIME" }],
            applications := [{ id := 1, jobId := 2, jobSeekerId := 1,
                               status := "SHORTLISTED" },
                             { id := 2, jobId := 2, jobSeekerId := 2,
                               status := "PENDING" }] } 1 a &&
        !(a.status == "PENDING" || a.status == "ACCEPTED" ||
          a.status == "REJECTED"))).length : Int) :=
  (c9_stats "1" 9
      { employers := [{ id := 1, userId := 9, companyName := "C" }],
        jobs := [{ id := 2, employerId := 1, title := "T",
                   role := "SOFTWARE_ENGINEER", description := "D",
                   jobType := "FULL_TIME" }],
        applications := [{ id := 1, jobId := 2, jobSeekerId := 1,
                           status := "SHORTLISTED" },
                         { id := 2, jobId := 2, jobSeekerId := 2,
                           status := "PENDING" }] }
      1 { id := 1, userId := 9, companyName := "C" } rfl rfl rfl).2.2.2.1

theorem authEmployer_fail_status
    (v : String → Option JwtUserPayload) (s : Store) (r : AuthReq)
    (st : Nat) (h : authEmployer v s r = .fail st) :
    st = 401 ∨ st = 403 ∨ st = 404 := by
  unfold authEmployer at h
  repeat' split at h
  all_goals simp_all

theorem authEmployer_ok_role
    (v : String → Option JwtUserPayload) (s : Store) (r : AuthReq)
    (u : User) (h : authEmployer v s r = .ok u) : u.role = "EMPLOYER" := by
  unfold authEmployer at h
  repeat' split at h
  all_goals simp_all

theorem requireCompleteProfile_some_400
    (u : User) (s : Store) (st : Nat)
    (h : requireCompleteProfile (some u) s = some st) : st = 400 := by
  unfold requireCompleteProfile at h
  repeat' split at h
  all_goals simp_all

theorem requireCompleteProfile_none_employer
    (u : User) (s : Store)
    (h : requireCompleteProfile (some u) s = none)
    (hrole : u.role = "EMPLOYER") :
    ∃ emp, s.employers.find? (fun e => e.userId == u.id) = some emp := by
  simp only [requireCompleteProfile] at h
  rw [if_pos (by simp [hrole])] at h
  rcases hf : s.employers.find? (fun e => e.userId == u.id) with _ | emp
  · rw [hf] at h
    cases h
  · exact ⟨emp, hf⟩

/-- C10: `POST /employer` can never succeed. The route first runs
`authEmployer` and `requireCompleteProfile`; the latter answers 400 when no
employer profile exists for the actor, while `createEmployer` answers 400
precisely when one does. Every request therefore yields an error response
(never 201) and leaves the store unchanged: no employer profile is ever
created through this endpoint. -/
theorem c10_create_employer_unreachable
    (verify : String → Option JwtUserPayload) (r : AuthReq)
    (body : Except Unit EmployerBody) (s : Store) :
    (postEmployerRoute verify r body s).1 = s ∧
    (postEmployerRoute verify r body s).2 ≠ 201 := by
  unfold postEmployerRoute
  cases hA : authEmployer verify s r with
  | fail st =>
    have hst := authEmployer_fail_status verify s r st hA
    constructor
    · rfl
    · simp only []
      omega
  | ok u =>
    have hrole := authEmployer_ok_role verify s r u hA
    cases hP : requireCompleteProfile (some u) s with
    | some st =>
      have hst := requireCompleteProfile_some_400 u s st hP
      constructor
      · simp only [hP]
      · simp only [hP]
        omega
    | none =>
      obtain ⟨emp, hemp⟩ := requireCompleteProfile_none_employer u s hP hrole
      cases body with
      | error e => simp [hP, createEmployer]
      | ok data => simp [hP, createEmployer, hemp]

end JobSphere
